import Mathlib

/- Shallow embedding of the vercel_blob Python client library
   (src/vercel_blob/blob_store.py, src/vercel_blob/utils.py,
   src/vercel_blob/errors.py) and theorems settling specification
   claims about chunk splitting, multipart coordination, retry
   behaviour, header construction, pathname validation and error
   propagation. Byte payloads are modelled as lists of naturals,
   Python dictionaries of string options as association lists, and
   raised exceptions as values of an explicit error type. -/

namespace VercelBlob

/-- Error values standing for the exception classes of errors.py
(`BlobConfigError`, `BlobRequestError`, `BlobFileError`) plus the
built-in Python exceptions the code can raise (`AssertionError`). -/
inductive PyErr where
  | configError (msg : String)
  | requestError (msg : String)
  | fileError (msg : String)
  | assertionError (msg : String)
deriving DecidableEq, Repr

/-- Python values that can appear in an options dictionary for the
flag options (`addRandomSuffix`, `allowOverwrite`): strings, booleans
and integers. -/
inductive PyVal where
  | str (s : String)
  | bool (b : Bool)
  | int (n : Int)
deriving DecidableEq, Repr

/-- Lookup in a Python dictionary modelled as an association list
(first binding of the key wins; Python dictionaries have unique keys). -/
def dget (d : List (String × String)) (k : String) : Option String :=
  (d.find? (fun kv => kv.1 = k)).map (·.2)

/-- Assignment `d[k] = v` on a Python dictionary modelled as an
association list: replaces the value of the first binding of the key
in place when the key is present (keys are unique in a Python
dictionary and assignment keeps the insertion position), otherwise
appends the new binding at the end (Python preserves insertion
order). -/
def dset : List (String × String) → String → String → List (String × String)
  | [], k, v => [(k, v)]
  | kv :: rest, k, v =>
    if kv.1 = k then (k, v) :: rest else kv :: dset rest k v

/-- Python truthiness of an optional string (`if x:` on the result of
a `.get` call): `None` and the empty string are falsy. -/
def pyTruthyStr : Option String → Bool
  | none => false
  | some s => s ≠ ""

/-! ## Part splitter (blob_store.py, `put`, lines 460-474) -/

/-- The constant `_MULTIPART_CHUNK_SIZE = 5 * 1024 * 1024` of blob_store.py. -/
def MULTIPART_CHUNK_SIZE : Nat := 5 * 1024 * 1024

/-- Line 460 of blob_store.py:
`total_parts = (len(data) + _MULTIPART_CHUNK_SIZE - 1) // _MULTIPART_CHUNK_SIZE`. -/
def totalParts (L : Nat) : Nat :=
  (L + MULTIPART_CHUNK_SIZE - 1) / MULTIPART_CHUNK_SIZE

/-- Chunk preparation loop of `put` (blob_store.py lines 469-474): for
`i in range(total_parts)` it computes `start = i * _MULTIPART_CHUNK_SIZE`,
`end = min(start + _MULTIPART_CHUNK_SIZE, len(data))` and appends the
pair `(i + 1, data[start:end])`; the Python slice `data[start:end]`
(with `start ≤ end ≤ len(data)`) is `(data.drop start).take (end - start)`. -/
def prepareChunks (data : List Nat) : List (Nat × List Nat) :=
  (List.range (totalParts data.length)).map fun i =>
    let start := i * MULTIPART_CHUNK_SIZE
    let stop := min (start + MULTIPART_CHUNK_SIZE) data.length
    (i + 1, (data.drop start).take (stop - start))

lemma MULTIPART_CHUNK_SIZE_pos : 0 < MULTIPART_CHUNK_SIZE := by
  decide

lemma chunk_take_eq (data : List Nat) (s : Nat) :
    (data.drop s).take (min (s + MULTIPART_CHUNK_SIZE) data.length - s) =
      (data.drop s).take MULTIPART_CHUNK_SIZE := by
  rw [List.take_eq_take]
  simp only [List.length_drop]
  omega

lemma flatten_fixed_chunks (C : Nat) (_hC : 0 < C) :
    ∀ (n : Nat) (data : List Nat), data.length ≤ n * C →
      ((List.range n).map fun i => (data.drop (i * C)).take C).flatten = data := by
  intro n
  induction n with
  | zero =>
    intro data h
    simp only [Nat.zero_mul, Nat.le_zero] at h
    simp [List.eq_nil_of_length_eq_zero h]
  | succ n ih =>
    intro data h
    rw [List.range_succ_eq_map]
    simp only [List.map_cons, List.map_map, List.flatten_cons, Nat.zero_mul,
      List.drop_zero]
    have hcongr :
        (List.range n).map ((fun i => (data.drop (i * C)).take C) ∘ Nat.succ) =
          (List.range n).map (fun i => ((data.drop C).drop (i * C)).take C) := by
      refine List.map_congr_left ?_
      intro i _
      simp only [Function.comp_apply]
      rw [List.drop_drop]
      congr 2
      simp only [Nat.succ_eq_add_one]
      ring
    have hexp : (n + 1) * C = n * C + C := by ring
    rw [hcongr, ih (data.drop C) (by simp only [List.length_drop]; omega)]
    exact List.take_append_drop C data

lemma MULTIPART_CHUNK_SIZE_eq : MULTIPART_CHUNK_SIZE = 5242880 := by
  norm_num [MULTIPART_CHUNK_SIZE]

lemma totalParts_ceil (L : Nat) :
    L ≤ totalParts L * MULTIPART_CHUNK_SIZE ∧
      totalParts L * MULTIPART_CHUNK_SIZE < L + MULTIPART_CHUNK_SIZE := by
  have hdm := Nat.div_add_mod (L + 5242880 - 1) 5242880
  have hmlt : (L + 5242880 - 1) % 5242880 < 5242880 := Nat.mod_lt _ (by norm_num)
  simp only [totalParts, MULTIPART_CHUNK_SIZE_eq]
  omega

lemma prepareChunks_flatten (data : List Nat) :
    ((prepareChunks data).map Prod.snd).flatten = data := by
  unfold prepareChunks
  rw [List.map_map]
  have hcongr :
      (List.range (totalParts data.length)).map
          (Prod.snd ∘ fun i =>
            let start := i * MULTIPART_CHUNK_SIZE
            let stop := min (start + MULTIPART_CHUNK_SIZE) data.length
            ((i + 1, (data.drop start).take (stop - start)) : Nat × List Nat)) =
        (List.range (totalParts data.length)).map
          (fun i => (data.drop (i * MULTIPART_CHUNK_SIZE)).take MULTIPART_CHUNK_SIZE) := by
    refine List.map_congr_left ?_
    intro i _
    simpa using chunk_take_eq data (i * MULTIPART_CHUNK_SIZE)
  rw [hcongr]
  exact flatten_fixed_chunks MULTIPART_CHUNK_SIZE MULTIPART_CHUNK_SIZE_pos _ data
    (totalParts_ceil data.length).1

lemma prepareChunks_fst (data : List Nat) :
    (prepareChunks data).map Prod.fst = List.range' 1 (totalParts data.length) := by
  unfold prepareChunks
  rw [List.map_map, List.range'_eq_map_range]
  refine List.map_congr_left ?_
  intro i _
  simp [Nat.add_comm]

/-- C1: a payload of `L` bytes uploaded with `multipart=True` is split
into exactly `ceil(L / 5MiB)` chunks (`totalParts` equals the least `n`
with `L ≤ n * chunkSize`), chunk `i` (0-based) is
`payload[i*chunkSize : min((i+1)*chunkSize, len(payload))]`, the chunks
concatenate back to the payload, the assigned part numbers are exactly
`1, 2, ..., totalParts` (unique and contiguous starting at 1), and a
zero-length payload yields zero chunks. -/
theorem claim_C1_chunk_split (data : List Nat) :
    (prepareChunks data).length = totalParts data.length ∧
    (data.length ≤ totalParts data.length * MULTIPART_CHUNK_SIZE ∧
      totalParts data.length * MULTIPART_CHUNK_SIZE < data.length + MULTIPART_CHUNK_SIZE) ∧
    (∀ i, i < totalParts data.length →
      (prepareChunks data)[i]? = some (i + 1,
        (data.drop (i * MULTIPART_CHUNK_SIZE)).take
          (min (i * MULTIPART_CHUNK_SIZE + MULTIPART_CHUNK_SIZE) data.length
            - i * MULTIPART_CHUNK_SIZE))) ∧
    ((prepareChunks data).map Prod.snd).flatten = data ∧
    (prepareChunks data).map Prod.fst = List.range' 1 (totalParts data.length) ∧
    (data.length = 0 → prepareChunks data = []) := by
  refine ⟨?_, totalParts_ceil data.length, ?_, prepareChunks_flatten data,
    prepareChunks_fst data, ?_⟩
  · simp [prepareChunks]
  · intro i hi
    unfold prepareChunks
    rw [List.getElem?_map, List.getElem?_range hi]
    rfl
  · intro h0
    have htp : totalParts data.length = 0 := by rw [h0]; decide
    simp [prepareChunks, htp]

/-- Witness for C1 at a concrete payload (three bytes, one chunk). -/
theorem claim_C1_chunk_split_witness :
    ((prepareChunks [7, 8, 9]).map Prod.snd).flatten = [7, 8, 9] ∧
      prepareChunks [] = [] :=
  ⟨(claim_C1_chunk_split [7, 8, 9]).2.2.2.1,
    (claim_C1_chunk_split []).2.2.2.2.2 rfl⟩

/-! ## Multipart coordinator: parts collection and completion
(blob_store.py, `put`, lines 476-508, and `_complete_multipart_upload`,
lines 366-381) -/

/-- The dictionary `{"partNumber": part_number, "etag": etag}` returned
by `_upload_part` (blob_store.py line 327). -/
structure PartDescriptor where
  partNumber : Nat
  etag : String
deriving DecidableEq, Repr

/-- Collection loop of `put` (lines 477 and 493-501): the parts list is
pre-allocated as `[None] * total_parts` and, as each upload future
resolves, either its part descriptor is written to the slot at index
`partNumber - 1` (each worker returns `part_number - 1` as its index)
or the exception is re-raised, abandoning the loop. The argument list
carries the resolved futures in completion order. -/
def collectParts : List (Except PyErr PartDescriptor) →
    List (Option PartDescriptor) → Except PyErr (List (Option PartDescriptor))
  | [], arr => .ok arr
  | .ok p :: rest, arr => collectParts rest (arr.set (p.partNumber - 1) (some p))
  | .error e :: _, _ => .error e

/-- The formatting filter of `_complete_multipart_upload` (lines
367-373): keeps exactly the entries that are dictionaries holding both
a `partNumber` and an `etag` key; `None` placeholders are dropped and
every descriptor produced by `_upload_part` has both keys. -/
def formatParts (parts : List (Option PartDescriptor)) : List PartDescriptor :=
  parts.filterMap id

/-- Multipart tail of `put` (lines 477-508): pre-allocate `total_parts`
slots, drain the completed futures, and on success issue the completion
call. An `Except.ok` value is the parts list submitted as the body of
`_complete_multipart_upload`; an `Except.error` value is the exception
that aborted `put` before any completion call was made. -/
def multipartSubmit (n : Nat)
    (results : List (Except PyErr PartDescriptor)) :
    Except PyErr (List PartDescriptor) :=
  (collectParts results (List.replicate n none)).map formatParts

lemma collectParts_filled (n : Nat) :
    ∀ (results : List PartDescriptor) (arr : List (Option PartDescriptor)),
      arr.length = n →
      (∀ p ∈ results, 1 ≤ p.partNumber ∧ p.partNumber ≤ n) →
      (∀ i, i < n →
        (∃ p, arr[i]? = some (some p) ∧ p.partNumber = i + 1) ∨
          (arr[i]? = some none ∧
            (i + 1) ∈ results.map PartDescriptor.partNumber)) →
      ∃ arr2, collectParts (results.map Except.ok) arr = .ok arr2 ∧
        arr2.length = n ∧
        (∀ i, i < n → ∃ p, arr2[i]? = some (some p) ∧ p.partNumber = i + 1) := by
  intro results
  induction results with
  | nil =>
    intro arr hlen _ hinv
    refine ⟨arr, rfl, hlen, ?_⟩
    intro i hi
    rcases hinv i hi with h | ⟨_, h⟩
    · exact h
    · simp at h
  | cons p rest ih =>
    intro arr hlen hbound hinv
    have hp := hbound p (by simp)
    simp only [List.map_cons, collectParts]
    refine ih (arr.set (p.partNumber - 1) (some p)) (by simp [hlen]) ?_ ?_
    · intro q hq
      exact hbound q (by simp [hq])
    · intro i hi
      by_cases hip : p.partNumber - 1 = i
      · left
        refine ⟨p, ?_, by omega⟩
        rw [← hip]
        rw [List.getElem?_set_self (by omega)]
      · rw [List.getElem?_set_ne hip]
        rcases hinv i hi with h | ⟨h1, h2⟩
        · left; exact h
        · right
          refine ⟨h1, ?_⟩
          simp only [List.map_cons, List.mem_cons] at h2
          rcases h2 with h2 | h2
          · exfalso; omega
          · exact h2

lemma filled_filterMap :
    ∀ (arr : List (Option PartDescriptor)) (s : Nat),
      (∀ i, i < arr.length →
        ∃ p, arr[i]? = some (some p) ∧ p.partNumber = s + i + 1) →
      (arr.filterMap id).map PartDescriptor.partNumber =
        List.range' (s + 1) arr.length := by
  intro arr
  induction arr with
  | nil => intro s _; simp
  | cons a arr ih =>
    intro s hinv
    obtain ⟨p, hp, hpn⟩ := hinv 0 (by simp)
    simp only [List.getElem?_cons_zero, Option.some.injEq] at hp
    subst hp
    have hfm : List.filterMap id (some p :: arr) = p :: List.filterMap id arr := rfl
    simp only [hfm, List.map_cons, List.length_cons]
    have hpn2 : p.partNumber = s + 1 := by omega
    rw [List.range'_succ, hpn2]
    congr 1
    refine ih (s + 1) ?_
    intro i hi
    obtain ⟨q, hq, hqn⟩ := hinv (i + 1) (by simpa using Nat.succ_lt_succ hi)
    refine ⟨q, by simpa using hq, by omega⟩

lemma sorted_range' (s n : Nat) : List.Sorted (· < ·) (List.range' s n) := by
  rw [List.range'_eq_map_range]
  refine (List.pairwise_map).2 ?_
  exact (List.sorted_lt_range n).imp (by omega)

/-- C2: for every multipart put in which all part uploads succeed, the
parts list passed to the completion call has exactly `totalParts`
entries, the part numbers are exactly `1, ..., totalParts` (so each is
unique in that interval), and the list is sorted ascending by
`partNumber`, regardless of the order in which the concurrent uploads
finish: the only hypothesis on `results` is that it carries, in any
order, one descriptor per chunk part number. -/
theorem claim_C2_completion_sorted (data : List Nat)
    (results : List PartDescriptor)
    (hperm : List.Perm (results.map PartDescriptor.partNumber)
      ((prepareChunks data).map Prod.fst)) :
    ∃ submitted,
      multipartSubmit (totalParts data.length) (results.map Except.ok) =
        .ok submitted ∧
      submitted.length = totalParts data.length ∧
      submitted.map PartDescriptor.partNumber =
        List.range' 1 (totalParts data.length) ∧
      List.Sorted (· < ·) (submitted.map PartDescriptor.partNumber) := by
  set n := totalParts data.length with hn
  have hperm2 : List.Perm (results.map PartDescriptor.partNumber) (List.range' 1 n) := by
    rw [prepareChunks_fst data] at hperm
    exact hperm
  have hbound : ∀ p ∈ results, 1 ≤ p.partNumber ∧ p.partNumber ≤ n := by
    intro p hpmem
    have hmem : p.partNumber ∈ List.range' 1 n :=
      hperm2.mem_iff.1 (List.mem_map_of_mem PartDescriptor.partNumber hpmem)
    have := List.mem_range'_1.1 hmem
    omega
  have hinit : ∀ i, i < n →
      (∃ p, (List.replicate n (none : Option PartDescriptor))[i]? = some (some p) ∧
        p.partNumber = i + 1) ∨
      ((List.replicate n (none : Option PartDescriptor))[i]? = some none ∧
        (i + 1) ∈ results.map PartDescriptor.partNumber) := by
    intro i hi
    right
    exact ⟨List.getElem?_replicate_of_lt hi,
      hperm2.mem_iff.2 (List.mem_range'_1.2 (by omega))⟩
  obtain ⟨arr2, hcoll, hlen2, hfill⟩ :=
    collectParts_filled n results (List.replicate n none) (by simp) hbound hinit
  have hfill0 : ∀ i, i < arr2.length →
      ∃ p, arr2[i]? = some (some p) ∧ p.partNumber = 0 + i + 1 := by
    intro i hi
    obtain ⟨p, hp, hpn⟩ := hfill i (by omega)
    exact ⟨p, hp, by omega⟩
  have hmap0 := filled_filterMap arr2 0 hfill0
  rw [hlen2] at hmap0
  have hmap : (arr2.filterMap id).map PartDescriptor.partNumber =
      List.range' 1 n := by
    simpa using hmap0
  refine ⟨formatParts arr2, ?_, ?_, ?_, ?_⟩
  · unfold multipartSubmit
    rw [hcoll]
    rfl
  · have hlenmap := congrArg List.length hmap
    simpa [formatParts, List.length_range'] using hlenmap
  · exact hmap
  · rw [formatParts, hmap]
    exact sorted_range' 1 n

/-- Witness for C2: a three-byte payload has one chunk; submitting its
single completed part yields the singleton sorted parts list. -/
theorem claim_C2_completion_sorted_witness :
    ∃ submitted,
      multipartSubmit (totalParts ([1, 2, 3] : List Nat).length)
        (([⟨1, "etag1"⟩] : List PartDescriptor).map Except.ok) =
        .ok submitted ∧
      submitted.length = totalParts ([1, 2, 3] : List Nat).length ∧
      submitted.map PartDescriptor.partNumber =
        List.range' 1 (totalParts ([1, 2, 3] : List Nat).length) ∧
      List.Sorted (· < ·) (submitted.map PartDescriptor.partNumber) :=
  claim_C2_completion_sorted [1, 2, 3] [⟨1, "etag1"⟩]
    (by rw [prepareChunks_fst]; decide)

/-- C3: for every multipart put, if any single part upload fails, the
whole operation fails with that error: no completion call is issued
(the result is an `Except.error`, never an `Except.ok` parts list), no
partial-success value is returned, and the coordinator abandons the
drain loop at the first failed future without re-dispatching it (the
remaining futures after an error never influence the outcome). -/
theorem claim_C3_failfast (n : Nat)
    (results : List (Except PyErr PartDescriptor))
    (hfail : ∃ e, Except.error e ∈ results) :
    (∃ e, multipartSubmit n results = .error e) ∧
    (∀ parts, multipartSubmit n results ≠ .ok parts) ∧
    (∀ e rest arr, collectParts (.error e :: rest) arr = .error e) := by
  have hcore : ∀ (rs : List (Except PyErr PartDescriptor))
      (arr : List (Option PartDescriptor)),
      (∃ e, Except.error e ∈ rs) → ∃ e, collectParts rs arr = .error e := by
    intro rs
    induction rs with
    | nil =>
      intro arr h
      obtain ⟨e, he⟩ := h
      simp at he
    | cons r rest ih =>
      intro arr h
      obtain ⟨e, he⟩ := h
      rcases r with e0 | p
      · exact ⟨e0, rfl⟩
      · rcases List.mem_cons.1 he with h1 | h1
        · exact absurd h1 (by simp)
        · exact ih (arr.set (p.partNumber - 1) (some p)) ⟨e, h1⟩
  obtain ⟨e, he⟩ := hcore results (List.replicate n none) hfail
  refine ⟨⟨e, ?_⟩, ?_, ?_⟩
  · rw [multipartSubmit, he]
    rfl
  · intro parts hok
    rw [multipartSubmit, he] at hok
    simp [Except.map] at hok
  · intro e' rest arr
    rfl

/-- Witness for C3 at a single failed part. -/
theorem claim_C3_failfast_witness :
    (∃ e, multipartSubmit 1
      [Except.error (PyErr.requestError "part upload failed")] = .error e) ∧
    (∀ parts, multipartSubmit 1
      [Except.error (PyErr.requestError "part upload failed")] ≠ .ok parts) ∧
    (∀ e rest arr, collectParts (.error e :: rest) arr = .error e) :=
  claim_C3_failfast 1 [Except.error (PyErr.requestError "part upload failed")]
    ⟨PyErr.requestError "part upload failed", by simp⟩

/-! ## Request issuer (blob_store.py, `_request_factory`, lines 61-131,
and `_response_handler`, lines 134-140) -/

/-- The constant `_MAX_RETRY_REQUEST_RETRIES = 3` of blob_store.py. -/
def MAX_RETRY_REQUEST_RETRIES : Nat := 3

/-- Default value of the `backoff_factor` parameter of
`_request_factory` (0.5 seconds). -/
def defaultBackoffFactor : ℚ := 1 / 2

/-- Outcome of one attempt of the loop body of `_request_factory`:
either the HTTP layer produced a response with the given status code,
or the attempt raised a `requests.exceptions.RequestException`
(connection reset, timeout, and so on). -/
inductive AttemptResult where
  | resp (status : Nat)
  | exn
deriving DecidableEq, Repr

/-- Decides whether an attempt raised a transport-level exception. -/
def AttemptResult.isExn : AttemptResult → Bool
  | .resp _ => false
  | .exn => true

/-- Sleep durations `backoff * attempt` for a list of attempt numbers. -/
def sleepsFor (backoff : ℚ) (attempts : List Nat) : List ℚ :=
  attempts.map (fun t => backoff * (t : ℚ))

/-- Trace of one `_request_factory` call: the status of the returned
response (`none` models the `return None` fall-through after the
loop), the number of attempts made, and the
`time.sleep(backoff_factor * attempt)` durations in order. -/
structure FactoryTrace where
  result : Option Nat
  attempts : Nat
  sleeps : List ℚ
deriving DecidableEq, Repr

/-- Loop of `_request_factory` (lines 77-131): `attempt` ranges over
`1, ..., _MAX_RETRY_REQUEST_RETRIES`; a response whose status is not
in `(502, 503, 504)` is returned at once; a gateway status falls
through to the next attempt with no sleep; a raised
`requests.exceptions.RequestException` prints, sleeps
`backoff_factor * attempt` and moves to the next attempt; when the
loop exhausts its attempts the function returns `None`. The `fuel`
argument counts the attempts still available. -/
def requestLoop (responder : Nat → AttemptResult) (backoff : ℚ) :
    Nat → Nat → FactoryTrace
  | _, 0 => ⟨none, 0, []⟩
  | attempt, fuel + 1 =>
    match responder attempt with
    | .resp s =>
      if s = 502 ∨ s = 503 ∨ s = 504 then
        let r := requestLoop responder backoff (attempt + 1) fuel
        ⟨r.result, r.attempts + 1, r.sleeps⟩
      else
        ⟨some s, 1, []⟩
    | .exn =>
      let r := requestLoop responder backoff (attempt + 1) fuel
      ⟨r.result, r.attempts + 1, backoff * (attempt : ℚ) :: r.sleeps⟩

/-- `_request_factory` as the retry loop started at attempt 1 with
`_MAX_RETRY_REQUEST_RETRIES` attempts available; the responder stands
for the underlying `session.request` call at each attempt. -/
def requestFactory (responder : Nat → AttemptResult) (backoff : ℚ) :
    FactoryTrace :=
  requestLoop responder backoff 1 MAX_RETRY_REQUEST_RETRIES

/-- A response as consumed by `_response_handler`: its status code and
the value of `resp.json()`, the parsed JSON body (modelled as the
string it renders to). -/
structure HttpResponse where
  status : Nat
  json : String
deriving DecidableEq, Repr

/-- `_response_handler` (blob_store.py lines 134-140): a missing
response — the `None` returned after exhausted retries — raises
`BlobRequestError("Request failed after retries. Please try again.")`;
a status other than 200 raises a `BlobRequestError` whose message
interpolates the parsed body; otherwise the parsed body is returned. -/
def responseHandler : Option HttpResponse → Except PyErr String
  | none => .error (.requestError "Request failed after retries. Please try again.")
  | some r =>
    if r.status ≠ 200 then
      .error (.requestError ("An error occoured: " ++ r.json))
    else
      .ok r.json

lemma requestLoop_spec (responder : Nat → AttemptResult) (backoff : ℚ) :
    ∀ (fuel a : Nat),
      (requestLoop responder backoff a fuel).attempts ≤ fuel ∧
      (requestLoop responder backoff a fuel).sleeps =
        sleepsFor backoff
          ((List.range' a (requestLoop responder backoff a fuel).attempts).filter
            (fun t => (responder t).isExn)) := by
  intro fuel
  induction fuel with
  | zero =>
    intro a
    simp [requestLoop, sleepsFor]
  | succ fuel ih =>
    intro a
    obtain ⟨ih1, ih2⟩ := ih (a + 1)
    cases hra : responder a with
    | resp s =>
      by_cases hgw : s = 502 ∨ s = 503 ∨ s = 504
      · simp only [requestLoop, hra, if_pos hgw]
        refine ⟨by omega, ?_⟩
        rw [List.range'_succ, List.filter_cons]
        simp only [hra, AttemptResult.isExn, Bool.false_eq_true, if_false]
        exact ih2
      · simp only [requestLoop, hra, if_neg hgw]
        refine ⟨by omega, ?_⟩
        rw [show List.range' a 1 = [a] from rfl, List.filter_cons]
        simp [hra, AttemptResult.isExn, sleepsFor]
    | exn =>
      simp only [requestLoop, hra]
      refine ⟨by omega, ?_⟩
      rw [List.range'_succ, List.filter_cons]
      simp only [hra, AttemptResult.isExn, if_true, sleepsFor, List.map_cons]
      rw [ih2]
      rfl

lemma requestFactory_bound_sleeps (responder : Nat → AttemptResult)
    (backoff : ℚ) :
    (requestFactory responder backoff).attempts ≤ 3 ∧
    (requestFactory responder backoff).sleeps =
      sleepsFor backoff
        ((List.range' 1 (requestFactory responder backoff).attempts).filter
          (fun t => (responder t).isExn)) :=
  requestLoop_spec responder backoff MAX_RETRY_REQUEST_RETRIES 1

lemma requestFactory_first_success (responder : Nat → AttemptResult)
    (backoff : ℚ) (s : Nat) (h1 : responder 1 = .resp s)
    (hgw : ¬(s = 502 ∨ s = 503 ∨ s = 504)) :
    requestFactory responder backoff = ⟨some s, 1, []⟩ := by
  unfold requestFactory MAX_RETRY_REQUEST_RETRIES
  simp only [requestLoop, h1, if_neg hgw]

/-- A responder that returns 503 on the first two attempts and 200 on
the third. -/
def responder503x2then200 : Nat → AttemptResult :=
  fun a => if a ≤ 2 then .resp 503 else .resp 200

/-- A responder that returns 503 on every attempt. -/
def responderAlways503 : Nat → AttemptResult :=
  fun _ => .resp 503

/-- C4 counterexample: the claim says every retry is preceded by a
wait of `backoff_factor * attempt`; with the default factor 0.5 a
responder that always returns 503 forces two retries (three attempts),
so the claim predicts the sleep trace `[0.5 * 1, 0.5 * 2]`, but
`_request_factory` sleeps only inside its `except` branch for
transport exceptions, and the actual sleep trace is empty. -/
theorem claim_C4_counterexample :
    (requestFactory responderAlways503 defaultBackoffFactor).attempts = 3 ∧
    (requestFactory responderAlways503 defaultBackoffFactor).sleeps = [] ∧
    (requestFactory responderAlways503 defaultBackoffFactor).sleeps ≠
      [defaultBackoffFactor * 1, defaultBackoffFactor * 2] := by
  refine ⟨by decide, by decide, ?_⟩
  rw [show (requestFactory responderAlways503 defaultBackoffFactor).sleeps = []
    by decide]
  simp

/-- C4 (amended): the request issuer makes at most 3 attempts and
re-attempts only when the response status is 502, 503 or 504 or when
the attempt raises a transport-level exception; it waits
`backoff_factor * attempt` after exactly the attempts that raised a
transport exception (default factor 0.5s), and does not wait before
retries triggered by a 502/503/504 status; any other status is
returned on the attempt that produced it. A responder returning 503,
503, 200 yields the 200 response after exactly 3 attempts with no
sleeps; one that always returns 503 yields `None` after exactly 3
attempts, which `_response_handler` turns into the terminal
`BlobRequestError("Request failed after retries. Please try again.")`. -/
theorem claim_C4_retry_amended :
    (∀ responder backoff,
      (requestFactory responder backoff).attempts ≤ 3 ∧
      (requestFactory responder backoff).sleeps =
        sleepsFor backoff
          ((List.range' 1 (requestFactory responder backoff).attempts).filter
            (fun t => (responder t).isExn))) ∧
    (∀ responder backoff s, responder 1 = .resp s →
      ¬(s = 502 ∨ s = 503 ∨ s = 504) →
      requestFactory responder backoff = ⟨some s, 1, []⟩) ∧
    requestFactory responder503x2then200 defaultBackoffFactor =
      ⟨some 200, 3, []⟩ ∧
    requestFactory responderAlways503 defaultBackoffFactor = ⟨none, 3, []⟩ ∧
    responseHandler none =
      .error (.requestError "Request failed after retries. Please try again.") :=
  ⟨requestFactory_bound_sleeps, requestFactory_first_success,
    by decide, by decide, rfl⟩

/-- Witness for C4 (amended) at concrete inputs: a first-attempt 200
returns at once, and a responder whose first attempt raises a
transport exception sleeps `0.5 * 1` before the retry that succeeds. -/
theorem claim_C4_retry_amended_witness :
    requestFactory (fun _ => .resp 200) defaultBackoffFactor =
      ⟨some 200, 1, []⟩ ∧
    (requestFactory (fun a => if a = 1 then .exn else .resp 200)
        defaultBackoffFactor).sleeps =
      sleepsFor defaultBackoffFactor
        ((List.range' 1 (requestFactory (fun a => if a = 1 then .exn else .resp 200)
            defaultBackoffFactor).attempts).filter
          (fun t => ((fun a => if a = 1 then AttemptResult.exn else .resp 200) t).isExn)) :=
  ⟨claim_C4_retry_amended.2.1 (fun _ => .resp 200) defaultBackoffFactor 200 rfl
      (by decide),
    (claim_C4_retry_amended.1 (fun a => if a = 1 then .exn else .resp 200)
      defaultBackoffFactor).2⟩

/-- C6 counterexample: a 201 status is in the 2xx range, so the claim
says `_response_handler` returns the parsed body; the code tests
`status_code != 200` and raises a `BlobRequestError` instead. -/
theorem claim_C6_counterexample :
    responseHandler (some ⟨201, "null"⟩) =
      .error (.requestError "An error occoured: null") ∧
    200 ≤ 201 ∧ 201 < 300 :=
  ⟨rfl, by omega, by omega⟩

/-- C6 (amended): a response whose status is not 502, 503 or 504 is
returned by the request issuer on the attempt that produced it with no
further attempts, and `_response_handler` raises a `BlobRequestError`
carrying a message built from the parsed error body exactly when the
status differs from 200 (rather than: when it is non-2xx), or a
terminal `BlobRequestError` when no response was obtained after
retries; it returns the parsed JSON body exactly when the status is
200. -/
theorem claim_C6_status_handling_amended :
    (∀ responder backoff s, responder 1 = .resp s →
      ¬(s = 502 ∨ s = 503 ∨ s = 504) →
      (requestFactory responder backoff).result = some s ∧
      (requestFactory responder backoff).attempts = 1) ∧
    responseHandler none =
      .error (.requestError "Request failed after retries. Please try again.") ∧
    (∀ r : HttpResponse, r.status ≠ 200 →
      responseHandler (some r) =
        .error (.requestError ("An error occoured: " ++ r.json))) ∧
    (∀ r : HttpResponse, r.status = 200 →
      responseHandler (some r) = .ok r.json) := by
  refine ⟨?_, rfl, ?_, ?_⟩
  · intro responder backoff s h1 hgw
    rw [requestFactory_first_success responder backoff s h1 hgw]
    exact ⟨rfl, rfl⟩
  · intro r hr
    simp [responseHandler, hr]
  · intro r hr
    simp [responseHandler, hr]

/-- Witness for C6 (amended) at concrete inputs: a 404 response raises
the error carrying the parsed body, and a 200 response returns its
body. -/
theorem claim_C6_status_handling_amended_witness :
    responseHandler (some ⟨404, "not found body"⟩) =
      .error (.requestError "An error occoured: not found body") ∧
    responseHandler (some ⟨200, "ok body"⟩) = .ok "ok body" :=
  ⟨claim_C6_status_handling_amended.2.2.1 ⟨404, "not found body"⟩ (by decide),
    claim_C6_status_handling_amended.2.2.2 ⟨200, "ok body"⟩ rfl⟩

/-! ## Credential resolution, header construction and pathname
validation (blob_store.py `_get_auth_token_from_env` and
`_get_auth_token` lines 39-54, `put` lines 415-520, `copy` lines
638-668, `_create_multipart_upload` lines 199-238, `_upload_part`
lines 274-300, `_complete_multipart_upload` lines 345-381; utils.py
`validate_pathname` lines 36-54) -/

/-- `_get_auth_token_from_env` (lines 39-45): reads
`BLOB_READ_WRITE_TOKEN` from the environment; an unset variable or a
falsy value (`if not token:`, so the empty string too) raises
`BlobConfigError`. -/
def getAuthTokenFromEnv (env : Option String) : Except PyErr String :=
  match env with
  | none => .error (.configError "BLOB_READ_WRITE_TOKEN environment variable not set")
  | some t =>
    if t = "" then
      .error (.configError "BLOB_READ_WRITE_TOKEN environment variable not set")
    else
      .ok t

/-- The options dictionary accepted by `put` and `copy`, restricted to
the keys the claims touch; an absent field models a missing key. -/
structure Options where
  token : Option String
  addRandomSuffix : Option PyVal
  allowOverwrite : Option PyVal
  cacheControlMaxAge : Option String
deriving DecidableEq, Repr

/-- `_get_auth_token` (lines 48-54): `options['token']` when the key
is present (whatever its value), else the environment lookup. -/
def getAuthToken (options : Options) (env : Option String) :
    Except PyErr String :=
  match options.token with
  | some t => .ok t
  | none => getAuthTokenFromEnv env

/-- Python membership test `options.get('addRandomSuffix') in
("false", False, "0")` of put line 435; membership compares with `==`
and the integer 0 equals `False` in Python. -/
def isFalseFlag : Option PyVal → Bool
  | some (.str "false") => true
  | some (.str "0") => true
  | some (.bool false) => true
  | some (.int 0) => true
  | _ => false

/-- Python membership test `options.get('allowOverwrite') in
("true", True, "1")` of put line 438; the integer 1 equals `True`. -/
def isTrueFlag : Option PyVal → Bool
  | some (.str "true") => true
  | some (.str "1") => true
  | some (.bool true) => true
  | some (.int 1) => true
  | _ => false

/-- Header dictionary built by `put` (lines 427-439) once the token is
resolved; `mime` stands for `guess_mime_type(path)`, the value the
standard `mimetypes` library derives from the path. -/
def putRequestHeaders (mime : String) (options : Options) (tok : String) :
    List (String × String) :=
  let headers := [("access", "public"),
    ("authorization", "Bearer " ++ tok),
    ("x-api-version", "10"),
    ("x-content-type", mime),
    ("x-cache-control-max-age", options.cacheControlMaxAge.getD "31536000")]
  let headers := if isFalseFlag options.addRandomSuffix then
    dset headers "x-add-random-suffix" "0" else headers
  if isTrueFlag options.allowOverwrite then
    dset headers "x-allow-overwrite" "1" else headers

/-- Header dictionary built by `copy` (lines 645-654); `mime` stands
for `guess_mime_type(blob_url)`. Line 653 reads
`if options.get('addRandomSuffix') != None:` and line 654 sets the
header to `"1"`, so ANY present value — `"false"` and `"0"` included —
sets `x-add-random-suffix: 1`. -/
def copyRequestHeaders (mime : String) (options : Options) (tok : String) :
    List (String × String) :=
  let headers := [("access", "public"),
    ("authorization", "Bearer " ++ tok),
    ("x-api-version", "10"),
    ("x-content-type", mime),
    ("x-cache-control-max-age", options.cacheControlMaxAge.getD "31536000")]
  if options.addRandomSuffix ≠ none then
    dset headers "x-add-random-suffix" "1" else headers

/-- The constant `_MAXIMUM_PATHNAME_LENGTH = 950` of utils.py. -/
def MAXIMUM_PATHNAME_LENGTH : Nat := 950

/-- The containment test `"//" in pathname` of utils.py line 53 (the
single entry of `_DISALLOWED_PATHNAME_CHARACTERS`). -/
def containsDoubleSlash (p : String) : Bool :=
  decide (List.IsInfix "//".toList p.toList)

/-- `validate_pathname` (utils.py lines 36-54): an empty pathname, a
pathname longer than 950 characters, or a pathname containing `"//"`
raises `BlobRequestError`, the checks running in that order. -/
def validatePathname (pathname : String) : Except PyErr Unit :=
  if pathname = "" then
    .error (.requestError "pathname is required")
  else if pathname.length > MAXIMUM_PATHNAME_LENGTH then
    .error (.requestError "pathname is too long, maximum length is 950")
  else if containsDoubleSlash pathname then
    .error (.requestError "pathname cannot contain \"//\", please encode it if needed")
  else
    .ok ()

/-- Headers of the `create` call built by `_create_multipart_upload`
(lines 213-220) on a copy of the `put` headers; `requestId` stands for
the `generate_request_id(token)` value (store id, wall clock,
randomness). -/
def mpuCreateHeaders (headers : List (String × String)) (requestId : String) :
    List (String × String) :=
  dset (dset (dset headers
    "x-mpu-action" "create")
    "x-api-blob-request-id" requestId)
    "x-api-blob-request-attempt" "0"

/-- Headers of one part upload built by `_upload_part` (lines
274-284); `quotedKey` stands for `requests.utils.quote(key)`. -/
def uploadPartHeaders (headers : List (String × String))
    (uploadId quotedKey : String) (partNumber : Nat) (requestId : String) :
    List (String × String) :=
  dset (dset (dset (dset (dset (dset (dset headers
    "x-mpu-action" "upload")
    "x-mpu-upload-id" uploadId)
    "x-mpu-key" quotedKey)
    "x-mpu-part-number" (toString partNumber))
    "Content-Type" "application/octet-stream")
    "x-api-blob-request-id" requestId)
    "x-api-blob-request-attempt" "0"

/-- Headers of the `complete` call built by
`_complete_multipart_upload` (lines 348-358). -/
def completeUploadHeaders (headers : List (String × String))
    (uploadId quotedKey : String) (requestId : String) :
    List (String × String) :=
  dset (dset (dset (dset (dset (dset headers
    "x-mpu-action" "complete")
    "x-mpu-upload-id" uploadId)
    "x-mpu-key" quotedKey)
    "content-type" "application/json")
    "x-api-blob-request-id" requestId)
    "x-api-blob-request-attempt" "0"

/-- An HTTP request as assembled by the library right before it is
handed to `_request_factory`. -/
structure HttpRequest where
  url : String
  method : String
  headers : List (String × String)
deriving DecidableEq, Repr

/-- The constant `_VERCEL_BLOB_API_BASE_URL` of blob_store.py. -/
def VERCEL_BLOB_API_BASE_URL : String := "https://blob.vercel-storage.com"

/-- First externally visible action of a `put` call. -/
inductive FirstAction where
  | raised (e : PyErr)
  | issue (req : HttpRequest)
deriving DecidableEq, Repr

/-- First externally visible action of `put` (lines 415-520):
resolving the token while building the headers (line 429) can raise
`BlobConfigError` before any request exists; with `multipart=True` the
flow enters `_create_multipart_upload`, whose `validate_pathname` call
(line 211) can raise `BlobRequestError` before its request (line 234,
`POST {base}/mpu?pathname={path}` with the raw path interpolated);
with `multipart=False` the single-shot request (lines 511-518,
`PUT {base}/?pathname={path}`) is issued with the `put` headers.
`mime` stands for `guess_mime_type(path)` and `requestId` for the
`generate_request_id` value of the create call. -/
def putFirstAction (path mime : String) (options : Options)
    (env : Option String) (requestId : String) (multipart : Bool) :
    FirstAction :=
  match getAuthToken options env with
  | .error e => .raised e
  | .ok tok =>
    let headers := putRequestHeaders mime options tok
    if multipart then
      match validatePathname path with
      | .error e => .raised e
      | .ok _ => .issue ⟨VERCEL_BLOB_API_BASE_URL ++ "/mpu?pathname=" ++ path,
          "POST", mpuCreateHeaders headers requestId⟩
    else
      .issue ⟨VERCEL_BLOB_API_BASE_URL ++ "/?pathname=" ++ path,
        "PUT", headers⟩

lemma dget_dset_self (d : List (String × String)) (k v : String) :
    dget (dset d k v) k = some v := by
  induction d with
  | nil => simp [dget, dset]
  | cons kv rest ih =>
    by_cases h : kv.1 = k
    · simp [dget, dset, h]
    · simp only [dset, h, if_false]
      simpa [dget, List.find?_cons, h] using ih

lemma dget_dset_ne (d : List (String × String)) (k v k2 : String)
    (h : k ≠ k2) : dget (dset d k v) k2 = dget d k2 := by
  induction d with
  | nil => simp [dget, dset, h, List.find?_cons]
  | cons kv rest ih =>
    by_cases hk : kv.1 = k
    · simp [dget, dset, hk, h, List.find?_cons]
    · simp only [dset, hk, if_false]
      by_cases hk2 : kv.1 = k2
      · simp [dget, List.find?_cons, hk2]
      · simpa [dget, List.find?_cons, hk2] using ih

lemma putRequestHeaders_auth (mime : String) (options : Options)
    (tok : String) :
    dget (putRequestHeaders mime options tok) "authorization" =
      some ("Bearer " ++ tok) := by
  unfold putRequestHeaders
  have hbase : dget [("access", "public"), ("authorization", "Bearer " ++ tok),
      ("x-api-version", "10"), ("x-content-type", mime),
      ("x-cache-control-max-age", options.cacheControlMaxAge.getD "31536000")]
      "authorization" = some ("Bearer " ++ tok) := by
    simp [dget, List.find?_cons]
  by_cases h1 : isFalseFlag options.addRandomSuffix <;>
    by_cases h2 : isTrueFlag options.allowOverwrite <;>
      simp only [h1, h2, eq_self_iff_true, Bool.false_eq_true, if_true, if_false]
  · rw [dget_dset_ne _ "x-allow-overwrite" "1" "authorization" (by decide),
      dget_dset_ne _ "x-add-random-suffix" "0" "authorization" (by decide)]
    exact hbase
  · rw [dget_dset_ne _ "x-add-random-suffix" "0" "authorization" (by decide)]
    exact hbase
  · rw [dget_dset_ne _ "x-allow-overwrite" "1" "authorization" (by decide)]
    exact hbase
  · exact hbase

lemma mpuCreateHeaders_auth (headers : List (String × String))
    (requestId : String) (a : Option String)
    (h : dget headers "authorization" = a) :
    dget (mpuCreateHeaders headers requestId) "authorization" = a := by
  unfold mpuCreateHeaders
  rw [dget_dset_ne _ "x-api-blob-request-attempt" "0" "authorization" (by decide),
    dget_dset_ne _ "x-api-blob-request-id" requestId "authorization" (by decide),
    dget_dset_ne _ "x-mpu-action" "create" "authorization" (by decide)]
  exact h

lemma uploadPartHeaders_auth (headers : List (String × String))
    (uploadId quotedKey : String) (partNumber : Nat) (requestId : String)
    (a : Option String) (h : dget headers "authorization" = a) :
    dget (uploadPartHeaders headers uploadId quotedKey partNumber requestId)
      "authorization" = a := by
  unfold uploadPartHeaders
  rw [dget_dset_ne _ "x-api-blob-request-attempt" "0" "authorization" (by decide),
    dget_dset_ne _ "x-api-blob-request-id" requestId "authorization" (by decide),
    dget_dset_ne _ "Content-Type" "application/octet-stream" "authorization" (by decide),
    dget_dset_ne _ "x-mpu-part-number" (toString partNumber) "authorization" (by decide),
    dget_dset_ne _ "x-mpu-key" quotedKey "authorization" (by decide),
    dget_dset_ne _ "x-mpu-upload-id" uploadId "authorization" (by decide),
    dget_dset_ne _ "x-mpu-action" "upload" "authorization" (by decide)]
  exact h

lemma completeUploadHeaders_auth (headers : List (String × String))
    (uploadId quotedKey : String) (requestId : String)
    (a : Option String) (h : dget headers "authorization" = a) :
    dget (completeUploadHeaders headers uploadId quotedKey requestId)
      "authorization" = a := by
  unfold completeUploadHeaders
  rw [dget_dset_ne _ "x-api-blob-request-attempt" "0" "authorization" (by decide),
    dget_dset_ne _ "x-api-blob-request-id" requestId "authorization" (by decide),
    dget_dset_ne _ "content-type" "application/json" "authorization" (by decide),
    dget_dset_ne _ "x-mpu-key" quotedKey "authorization" (by decide),
    dget_dset_ne _ "x-mpu-upload-id" uploadId "authorization" (by decide),
    dget_dset_ne _ "x-mpu-action" "complete" "authorization" (by decide)]
  exact h

/-- C7: a `put` call with no token option and with
`BLOB_READ_WRITE_TOKEN` unset raises `BlobConfigError` before any
network call — for the single-shot and the multipart path alike the
first action is the raise, never a request — and whenever a token is
resolved, the header dictionary of every call `put` issues carries
`authorization: Bearer <token>`: the single-shot request headers, the
multipart create headers, and the headers of every part upload and of
the completion call (all derived from the same `put` base headers). -/
theorem claim_C7_auth (path mime : String) (options : Options)
    (env : Option String) (requestId : String) :
    (options.token = none → env = none →
      ∀ mp, putFirstAction path mime options env requestId mp =
        .raised (.configError "BLOB_READ_WRITE_TOKEN environment variable not set")) ∧
    (∀ tok, getAuthToken options env = .ok tok →
      dget (putRequestHeaders mime options tok) "authorization" =
        some ("Bearer " ++ tok) ∧
      dget (mpuCreateHeaders (putRequestHeaders mime options tok) requestId)
        "authorization" = some ("Bearer " ++ tok) ∧
      (∀ uploadId quotedKey partNumber requestId2,
        dget (uploadPartHeaders (putRequestHeaders mime options tok)
          uploadId quotedKey partNumber requestId2) "authorization" =
          some ("Bearer " ++ tok)) ∧
      (∀ uploadId quotedKey requestId2,
        dget (completeUploadHeaders (putRequestHeaders mime options tok)
          uploadId quotedKey requestId2) "authorization" =
          some ("Bearer " ++ tok))) := by
  constructor
  · intro ht he mp
    simp [putFirstAction, getAuthToken, ht, getAuthTokenFromEnv, he]
  · intro tok _
    refine ⟨putRequestHeaders_auth mime options tok, ?_, ?_, ?_⟩
    · exact mpuCreateHeaders_auth _ requestId _
        (putRequestHeaders_auth mime options tok)
    · intro uploadId quotedKey partNumber requestId2
      exact uploadPartHeaders_auth _ uploadId quotedKey partNumber requestId2 _
        (putRequestHeaders_auth mime options tok)
    · intro uploadId quotedKey requestId2
      exact completeUploadHeaders_auth _ uploadId quotedKey requestId2 _
        (putRequestHeaders_auth mime options tok)

/-- Witness for C7: a missing credential aborts before any request,
and a provided token appears as the bearer header. -/
theorem claim_C7_auth_witness :
    putFirstAction "a.txt" "text/plain" ⟨none, none, none, none⟩ none "rid"
        false =
      .raised (.configError "BLOB_READ_WRITE_TOKEN environment variable not set") ∧
    dget (putRequestHeaders "text/plain" ⟨some "tok", none, none, none⟩ "tok")
      "authorization" = some ("Bearer " ++ "tok") :=
  ⟨(claim_C7_auth "a.txt" "text/plain" ⟨none, none, none, none⟩ none "rid").1
      rfl rfl false,
    ((claim_C7_auth "a.txt" "text/plain" ⟨some "tok", none, none, none⟩ none
      "rid").2 "tok" rfl).1⟩

/-- C8: divergence of `copy` from the single-shot `put` header rules,
at the concrete options `{"addRandomSuffix": "false"}`. The `put`
headers carry `x-add-random-suffix: "0"` (suffixing disabled), while
the `copy` headers carry `x-add-random-suffix: "1"` (suffixing
enabled), because copy line 653 only tests that the option is present
and line 654 always writes `"1"`; with the option absent neither
function emits the header. This contradicts the claim (and the
docstring of `copy` itself, which documents `addRandomSuffix` as a
boolean defaulting to `"false"` for copy). -/
theorem claim_C8_copy_header_divergence :
    dget (copyRequestHeaders "text/plain"
      ⟨some "tok", some (.str "false"), none, none⟩ "tok")
      "x-add-random-suffix" = some "1" ∧
    dget (putRequestHeaders "text/plain"
      ⟨some "tok", some (.str "false"), none, none⟩ "tok")
      "x-add-random-suffix" = some "0" ∧
    dget (copyRequestHeaders "text/plain" ⟨some "tok", none, none, none⟩ "tok")
      "x-add-random-suffix" = none ∧
    dget (putRequestHeaders "text/plain" ⟨some "tok", none, none, none⟩ "tok")
      "x-add-random-suffix" = none ∧
    ("1" : String) ≠ "0" :=
  ⟨rfl, rfl, rfl, rfl, by decide⟩

lemma validatePathname_invalid (path : String)
    (hbad : path = "" ∨ path.length > MAXIMUM_PATHNAME_LENGTH ∨
      containsDoubleSlash path = true) :
    ∃ msg, validatePathname path = .error (.requestError msg) := by
  unfold validatePathname
  by_cases h1 : path = ""
  · exact ⟨"pathname is required", by rw [if_pos h1]⟩
  · by_cases h2 : path.length > MAXIMUM_PATHNAME_LENGTH
    · exact ⟨"pathname is too long, maximum length is 950",
        by rw [if_neg h1, if_pos h2]⟩
    · have h3 : containsDoubleSlash path = true := by tauto
      exact ⟨"pathname cannot contain \"//\", please encode it if needed",
        by rw [if_neg h1, if_neg h2, if_pos h3]⟩

/-- C10: for every multipart `put` the pathname is validated before
any HTTP call — an empty pathname, a pathname longer than 950
characters, or one containing `"//"` raises `BlobRequestError` during
session creation, before the create request is issued — while the
single-shot path performs no pathname validation and issues its
request for any string path. -/
theorem claim_C10_pathname_validation (path mime : String)
    (options : Options) (env : Option String) (requestId : String)
    (tok : String) (hok : getAuthToken options env = .ok tok) :
    ((path = "" ∨ path.length > MAXIMUM_PATHNAME_LENGTH ∨
        containsDoubleSlash path = true) →
      ∃ msg, putFirstAction path mime options env requestId true =
        .raised (.requestError msg)) ∧
    putFirstAction path mime options env requestId false =
      .issue ⟨VERCEL_BLOB_API_BASE_URL ++ "/?pathname=" ++ path, "PUT",
        putRequestHeaders mime options tok⟩ := by
  constructor
  · intro hbad
    obtain ⟨msg, hmsg⟩ := validatePathname_invalid path hbad
    refine ⟨msg, ?_⟩
    simp [putFirstAction, hok, hmsg]
  · simp [putFirstAction, hok]

/-- Witness for C10: a pathname containing `"//"` aborts the multipart
flow before its create request, while the single-shot flow issues its
request even for a pathname containing a space (no validation). -/
theorem claim_C10_pathname_validation_witness :
    (∃ msg, putFirstAction "a//b.txt" "text/plain"
      ⟨some "tok", none, none, none⟩ none "rid" true =
        .raised (.requestError msg)) ∧
    putFirstAction "any path" "text/plain"
      ⟨some "tok", none, none, none⟩ none "rid" false =
      .issue ⟨VERCEL_BLOB_API_BASE_URL ++ "/?pathname=" ++ "any path", "PUT",
        putRequestHeaders "text/plain" ⟨some "tok", none, none, none⟩ "tok"⟩ :=
  ⟨(claim_C10_pathname_validation "a//b.txt" "text/plain"
      ⟨some "tok", none, none, none⟩ none "rid" "tok" rfl).1
      (Or.inr (Or.inr (by decide))),
    (claim_C10_pathname_validation "any path" "text/plain"
      ⟨some "tok", none, none, none⟩ none "rid" "tok" rfl).2⟩

/-! ## Part uploader etag extraction (blob_store.py, `_upload_part`,
lines 302-327) -/

/-- The response to one part upload as `_upload_part` inspects it:
`etagHeader` is `resp.headers.get('etag')` (the case-insensitive
lookup of the requests library) and `body` is the parsed JSON body
when it is a dictionary (`None` models any non-dictionary body),
modelled as an association list of string fields. -/
structure PartUploadResponse where
  etagHeader : Option String
  body : Option (List (String × String))
deriving DecidableEq, Repr

/-- Lines 309-319 of `_upload_part`: the etag candidate before the
fallback check — the `etag` response header when truthy, else the
`etag` field and only then the `ETag` field of a dictionary body. -/
def rawEtag (resp : PartUploadResponse) : Option String :=
  if pyTruthyStr resp.etagHeader then resp.etagHeader
  else
    match resp.body with
    | some d =>
      match dget d "etag" with
      | some v => some v
      | none => dget d "ETag"
    | none => none

/-- Line 324 of `_upload_part`: the fallback
`f"\"part-{part_number}-{int(time.time())}\""`; `now` stands for
`int(time.time())`. -/
def fallbackEtag (partNumber now : Nat) : String :=
  "\"part-" ++ toString partNumber ++ "-" ++ toString now ++ "\""

/-- Lines 302-327 of `_upload_part`: the returned dictionary
`{"partNumber": part_number, "etag": etag}`, where a falsy candidate
(`if not etag:` — absent or empty) is replaced by the fallback. -/
def uploadPartResult (partNumber now : Nat) (resp : PartUploadResponse) :
    PartDescriptor :=
  let etag := match rawEtag resp with
    | some v => if v = "" then fallbackEtag partNumber now else v
    | none => fallbackEtag partNumber now
  ⟨partNumber, etag⟩

/-- C5: for every part upload that receives a response, the completion
token is taken from the `etag` response header first, else from an
`etag` then an `ETag` field of the JSON dictionary body, in that
priority order; when no candidate yields a (truthy) token, the
placeholder synthesized from the part number and the current time is
used; and the returned descriptor is `{partNumber, etag}` with the
given 1-based part number. -/
theorem claim_C5_etag_priority (partNumber now : Nat)
    (resp : PartUploadResponse) :
    (uploadPartResult partNumber now resp).partNumber = partNumber ∧
    (∀ h, resp.etagHeader = some h → h ≠ "" →
      (uploadPartResult partNumber now resp).etag = h) ∧
    (∀ d v, pyTruthyStr resp.etagHeader = false → resp.body = some d →
      dget d "etag" = some v → v ≠ "" →
      (uploadPartResult partNumber now resp).etag = v) ∧
    (∀ d v, pyTruthyStr resp.etagHeader = false → resp.body = some d →
      dget d "etag" = none → dget d "ETag" = some v → v ≠ "" →
      (uploadPartResult partNumber now resp).etag = v) ∧
    ((rawEtag resp = none ∨ rawEtag resp = some "") →
      (uploadPartResult partNumber now resp).etag =
        fallbackEtag partNumber now) := by
  refine ⟨rfl, ?_, ?_, ?_, ?_⟩
  · intro h hh hne
    have hraw : rawEtag resp = some h := by
      unfold rawEtag
      rw [if_pos (by simp [pyTruthyStr, hh, hne])]
      exact hh
    simp [uploadPartResult, hraw, hne]
  · intro d v hhd hbody hv hne
    have hraw : rawEtag resp = some v := by
      unfold rawEtag
      rw [if_neg (by simp [hhd]), hbody]
      simp [hv]
    simp [uploadPartResult, hraw, hne]
  · intro d v hhd hbody hv1 hv2 hne
    have hraw : rawEtag resp = some v := by
      unfold rawEtag
      rw [if_neg (by simp [hhd]), hbody]
      simp [hv1, hv2]
    simp [uploadPartResult, hraw, hne]
  · intro hraw
    rcases hraw with hraw | hraw <;> simp [uploadPartResult, hraw]

/-- Witness for C5: a header etag wins, a body etag is used when the
header is missing, and a missing candidate falls back to the
synthesized token. -/
theorem claim_C5_etag_priority_witness :
    (uploadPartResult 2 1700000000 ⟨some "abc", none⟩).etag = "abc" ∧
    (uploadPartResult 1 1700000000
      ⟨none, some [("etag", "bodytag")]⟩).etag = "bodytag" ∧
    (uploadPartResult 3 1700000000 ⟨none, none⟩).etag =
      fallbackEtag 3 1700000000 :=
  ⟨(claim_C5_etag_priority 2 1700000000 ⟨some "abc", none⟩).2.1 "abc" rfl
      (by decide),
    (claim_C5_etag_priority 1 1700000000
      ⟨none, some [("etag", "bodytag")]⟩).2.2.1 [("etag", "bodytag")] "bodytag"
      rfl rfl rfl (by decide),
    (claim_C5_etag_priority 3 1700000000 ⟨none, none⟩).2.2.2.2 (Or.inl rfl)⟩

/-! ## download_file (blob_store.py, lines 671-725) -/

/-- Python `path.lstrip('/')` of line 702: strips all leading
slashes. -/
def lstripSlashes (path : String) : String :=
  ⟨path.toList.dropWhile (fun c => c == '/')⟩

/-- Python `path.endswith('/')` of line 705: the last character is a
slash (false on the empty string). -/
def endsWithSlash (path : String) : Bool :=
  path.toList.getLastD 'x' == '/'

/-- The `url.split('/')[-1]` component used as the local file name
(line 718): the suffix of the url after its last slash (the whole url
when it has no slash). -/
def lastUrlComponent (url : String) : String :=
  ⟨(url.toList.reverse.takeWhile (fun c => c != '/')).reverse⟩

/-- Outcome of a `download_file` call: the exception it raises, or the
full path of the file written. -/
inductive DownloadOutcome where
  | assertionError (msg : String)
  | blobFileError (msg : String)
  | blobRequestError (msg : String)
  | written (fullPath : String)
deriving DecidableEq, Repr

/-- Body of the outer `try` of `download_file` (lines 710-722):
`requestOk` stands for `_request_factory(...)` yielding a response
object (when it returns `None` the `.content` access raises, and other
request failures raise too); `openOk` stands for the `open` call
finding the destination directory — when it raises
`FileNotFoundError`, the inner handler raises `BlobFileError`. -/
def downloadFileBody (url pathToSave : String) (requestOk openOk : Bool) :
    DownloadOutcome :=
  if requestOk then
    if openOk then
      .written (pathToSave ++ lastUrlComponent url)
    else
      .blobFileError "The directory must exist before downloading the file. Please create the directory and try again."
  else
    .blobRequestError "An error occurred. Please try again."

/-- `download_file` (lines 694-725): the `path` argument is stripped
of leading slashes (`path.lstrip('/')`) and appended to the script
path `os.getcwd() + '/'`; when the result differs from the script path
two assertions run before any network call (`path` must end with `/`
and the destination must exist); then the outer `except Exception`
handler re-raises ANY exception of the body — the inner
`BlobFileError` included — as
`BlobRequestError("An error occurred. Please try again.")`. -/
def downloadFile (cwd url path : String)
    (dirExists requestOk openOk : Bool) : DownloadOutcome :=
  let sanitized := lstripSlashes path
  let pathToSave := cwd ++ "/" ++ sanitized
  if sanitized ≠ "" then
    if ¬ endsWithSlash path then
      .assertionError "path must be a valid directory path, ending with '/'"
    else if ¬ dirExists then
      .assertionError "path must be a valid directory path"
    else
      match downloadFileBody url pathToSave requestOk openOk with
      | .written f => .written f
      | _ => .blobRequestError "An error occurred. Please try again."
  else
    match downloadFileBody url pathToSave requestOk openOk with
    | .written f => .written f
    | _ => .blobRequestError "An error occurred. Please try again."

/-- C9: code-bug evidence for `download_file` at concrete inputs. With
a destination directory that does not exist the call fails before any
request with `AssertionError` — not the claimed `FileError` — and the
directory is never created and nothing is written; on the only path
where the code constructs its `BlobFileError` (the `open` call raising
`FileNotFoundError` after the existence check), the outer handler
re-wraps it into a generic `BlobRequestError`, so no `FileError` ever
reaches the caller; on success the body is written to a file in the
given directory. -/
theorem claim_C9_download_file_error :
    downloadFile "/home/user" "https://host/f.txt" "missing/" false true true =
      .assertionError "path must be a valid directory path" ∧
    downloadFileBody "https://host/f.txt" "/home/user/missing/" true false =
      .blobFileError "The directory must exist before downloading the file. Please create the directory and try again." ∧
    downloadFile "/home/user" "https://host/f.txt" "missing/" true true false =
      .blobRequestError "An error occurred. Please try again." ∧
    downloadFile "/home/user" "https://host/f.txt" "dir/" true true true =
      .written "/home/user/dir/f.txt" :=
  ⟨by decide, by decide, by decide, by decide⟩

end VercelBlob
